import Mathlib

/-!
# Verification of the mother-in-law-decoder transcript/session core

Shallow embedding of the streaming-transcript and session-state engine of
the repository: speaker profiles and language resolution
(`family_chat/session.py`), session persistence (`save_state` /
`_load_state`), the plain-text renderer (`Session.render_plain_text`), the
UI transcript renderers and scroll window (`live_transcriber/ui.py`).

Python dictionaries are embedded as association lists in insertion order
(lookup returns the first binding; assignment replaces in place or appends).
Python floats that are only ever compared against the constant `0.5`
threshold are embedded as rationals.  Fallible parsing returns `Option`.
-/

namespace FamilyChat

/-- A recognition token, as consumed from the inbound token stream.  Absent
JSON fields are `none`; `language_confidence` defaults to `1.0` at use
sites (`token.get("language_confidence", 1.0)`), which is embedded as
`Option ℚ` plus `getD 1` where the code reads it.  `is_final` is read with
default `True` (`token.get("is_final", True)`), so it is embedded as a
plain `Bool`. -/
structure Token where
  text : String
  speaker : Option Int
  language : Option String
  languageConfidence : Option ℚ
  isFinal : Bool
  translationStatus : Option String
  sourceLanguage : Option String
  deriving DecidableEq, Repr, Inhabited

/-- Increment a key of a Python `dict`-of-counts (`defaultdict(int)`):
bump the first binding of the key in place, or append the key with count 1
(a missing key reads as 0). Mirrors `self.language_counts[language] += 1`. -/
def bumpCount : List (String × Nat) → String → List (String × Nat)
  | [], k => [(k, 1)]
  | (a, n) :: t, k => if a = k then (a, n + 1) :: t else (a, n) :: bumpCount t k

/-- Read a count from the `defaultdict(int)`: first binding, missing = 0.
Mirrors `self.language_counts.get(lang, 0)`. -/
def lookupCount : List (String × Nat) → String → Nat
  | [], _ => 0
  | (a, n) :: t, k => if a = k then n else lookupCount t k

/-- `LANGUAGE_CONFIDENCE_THRESHOLD = 0.5` in `family_chat/session.py`.
Written as `mkRat 1 2` (the same rational as `0.5`, see
`LANGUAGE_CONFIDENCE_THRESHOLD_eq`) so that comparisons against it are
kernel-computable. -/
def LANGUAGE_CONFIDENCE_THRESHOLD : ℚ := mkRat 1 2

/-- `MIN_SAMPLES_FOR_LABELING = 10` in `family_chat/session.py`. -/
def MIN_SAMPLES_FOR_LABELING : Nat := 10

/-- `SpeakerProfile` of `family_chat/session.py`: per-speaker language
tally.  `language_counts` is a `defaultdict(int)` embedded as an
association list in insertion order. -/
structure SpeakerProfile where
  speakerId : Int
  languageCounts : List (String × Nat)
  lastLanguage : Option String
  totalSamples : Nat
  deriving DecidableEq, Repr, Inhabited

namespace SpeakerProfile

/-- `SpeakerProfile.__init__`. -/
def init (speakerId : Int) : SpeakerProfile :=
  { speakerId := speakerId, languageCounts := [], lastLanguage := none, totalSamples := 0 }

/-- `SpeakerProfile.add_sample`. -/
def add_sample (p : SpeakerProfile) (language : String) : SpeakerProfile :=
  { p with
    languageCounts := bumpCount p.languageCounts language
    lastLanguage := some language
    totalSamples := p.totalSamples + 1 }

/-- `SpeakerProfile.get_speaker_type`: classify the speaker once at least
`MIN_SAMPLES_FOR_LABELING` samples exist, from the ratio of the two
hardcoded reference languages `"en"` / `"zh"`.  The ratios
`en_count / total` and the `0.8` threshold are written with `mkRat`
(`mkRat a b = (a : ℚ) / b`, see `mkRat_eq_div_nat`; `mkRat 4 5 = 0.8`,
see `ratio_threshold_eq`) so that the classification is
kernel-computable. -/
def get_speaker_type (p : SpeakerProfile) : Option String :=
  if p.totalSamples < MIN_SAMPLES_FOR_LABELING then none
  else
    let en_count := lookupCount p.languageCounts "en"
    let zh_count := lookupCount p.languageCounts "zh"
    let total := en_count + zh_count
    if total = 0 then none
    else
      let en_ratio : ℚ := mkRat en_count total
      let zh_ratio : ℚ := mkRat zh_count total
      if en_ratio ≥ mkRat 4 5 then some "English"
      else if zh_ratio ≥ mkRat 4 5 then some "Chinese"
      else some "Bilingual"

/-- `SpeakerProfile.get_label`. -/
def get_label (p : SpeakerProfile) : String :=
  let sid := p.speakerId
  match p.get_speaker_type with
  | some st => s!"{st} Speaker {sid}"
  | none => s!"Speaker {sid}"

/-- The dictionary produced by `SpeakerProfile.to_dict` (and stored in the
session state file under the speaker's id). -/
structure Data where
  languageCounts : List (String × Nat)
  lastLanguage : Option String
  totalSamples : Nat
  deriving DecidableEq, Repr, Inhabited

/-- `SpeakerProfile.to_dict`. -/
def to_dict (p : SpeakerProfile) : Data :=
  { languageCounts := p.languageCounts
    lastLanguage := p.lastLanguage
    totalSamples := p.totalSamples }

/-- `SpeakerProfile.from_dict`. -/
def from_dict (speakerId : Int) (data : Data) : SpeakerProfile :=
  { speakerId := speakerId
    languageCounts := data.languageCounts
    lastLanguage := data.lastLanguage
    totalSamples := data.totalSamples }

end SpeakerProfile

/-- Python `dict` assignment `d[k] = v` on an association list: replace the
first binding of `k` in place, or append `(k, v)` at the end. -/
def dictSet : List (Int × SpeakerProfile) → Int → SpeakerProfile → List (Int × SpeakerProfile)
  | [], k, v => [(k, v)]
  | (a, b) :: t, k, v => if a = k then (k, v) :: t else (a, b) :: dictSet t k v

/-- Python `dict` membership/lookup `d.get(k)` on an association list. -/
def dictGet : List (Int × SpeakerProfile) → Int → Option SpeakerProfile
  | [], _ => none
  | (a, b) :: t, k => if a = k then some b else dictGet t k

/-- The mutable state of `Session` (`family_chat/session.py`) that the
verified claims touch.  The session directory paths and the raw audio
frame buffer are outside the embedded core (the spec excludes the audio
path).  `targetLanguage` is the `target_language` configuration read by
the UI renderers (`live_transcriber/ui.py` reads
`self.session.target_language`); in the `family_chat` module tree the
target language is hardcoded to `"en"` instead. -/
structure Session where
  name : String
  targetLanguage : String
  speakerProfiles : List (Int × SpeakerProfile)
  finalTokens : List Token
  segmentCount : Nat
  resumed : Bool
  deriving DecidableEq, Repr, Inhabited

namespace Session

/-- `Session.get_speaker_profile`: get or create the profile for a speaker
id.  Returns the profile together with the (possibly extended) session,
because creation mutates `self.speaker_profiles`. -/
def get_speaker_profile (s : Session) (speakerId : Int) : SpeakerProfile × Session :=
  match dictGet s.speakerProfiles speakerId with
  | some p => (p, s)
  | none =>
    let p := SpeakerProfile.init speakerId
    (p, { s with speakerProfiles := s.speakerProfiles ++ [(speakerId, p)] })

end Session

/-- The shared tail of `resolve_language` after the low-confidence check:
record the stated language as a sample if present, else fall back to the
profile's last language, else `"en"`. -/
def resolveRecord (token : Token) (s : Session) (speakerId : Int)
    (profile : SpeakerProfile) : String × Session :=
  match token.language with
  | some language =>
    let p2 := profile.add_sample language
    (language, { s with speakerProfiles := dictSet s.speakerProfiles speakerId p2 })
  | none =>
    match profile.lastLanguage with
    | some last_lang => (last_lang, s)
    | none => ("en", s)

/-- `resolve_language` (`family_chat/session.py`): resolve the language of
a token, using speaker history when confidence is below
`LANGUAGE_CONFIDENCE_THRESHOLD`, and track the language sample for the
speaker.  The Python function mutates the session's profile map in place;
the embedding returns the updated session alongside the resolved
language. -/
def resolve_language (token : Token) (s : Session) : String × Session :=
  match token.speaker with
  | none => (token.language.getD "en", s)
  | some speaker =>
    let pr := Session.get_speaker_profile s speaker
    let profile := pr.1
    let s1 := pr.2
    if token.languageConfidence.getD 1 < LANGUAGE_CONFIDENCE_THRESHOLD then
      match profile.lastLanguage with
      | some last_lang => (last_lang, s1)
      | none => resolveRecord token s1 speaker profile
    else
      resolveRecord token s1 speaker profile

/-- One decimal digit as a character (`0 ≤ n ≤ 9`; other inputs are never
used). -/
def digitChar : Nat → Char
  | 0 => '0' | 1 => '1' | 2 => '2' | 3 => '3' | 4 => '4'
  | 5 => '5' | 6 => '6' | 7 => '7' | 8 => '8' | _ => '9'

/-- Big-endian decimal digits of a natural number (always nonempty). -/
def natDigits (n : Nat) : List Char :=
  if _h : n < 10 then [digitChar n]
  else natDigits (n / 10) ++ [digitChar (n % 10)]
  decreasing_by exact Nat.div_lt_self (by omega) (by omega)

/-- Model of Python `str` on an integer (the conversion `json.dump`
applies to the integer speaker-id keys of `speaker_profiles`): canonical
decimal representation, `-` prefix for negative numbers. -/
def pyStr (i : Int) : String :=
  if i < 0 then "-" ++ ⟨natDigits i.natAbs⟩ else ⟨natDigits i.natAbs⟩

/-- Decimal value of a character, if it is a digit. -/
def digitVal (c : Char) : Option Nat :=
  if '0' ≤ c ∧ c ≤ '9' then some (c.toNat - 48) else none

/-- Accumulating decimal parser over a character list; fails on the first
non-digit. -/
def parseNatFrom (acc : Nat) : List Char → Option Nat
  | [] => some acc
  | c :: t =>
    match digitVal c with
    | some d => parseNatFrom (acc * 10 + d) t
    | none => none

/-- Parse a nonempty all-digit character list. -/
def parseNatDigits : List Char → Option Nat
  | [] => none
  | l => parseNatFrom 0 l

/-- Character-list worker for `pyInt`: an optionally `-`-signed canonical
decimal numeral. -/
def pyIntChars : List Char → Option Int
  | [] => none
  | c :: rest =>
    if c = '-' then
      match parseNatDigits rest with
      | some n => some (-(n : Int))
      | none => none
    else
      match parseNatDigits (c :: rest) with
      | some n => some ((n : Int))
      | none => none

/-- Model of Python `int` applied to a string (as in
`int(sid)` in `Session._load_state`): parses an optionally `-`-signed
canonical decimal numeral, failing (raising `ValueError`) on anything
else. -/
def pyInt (str : String) : Option Int :=
  pyIntChars str.data

/-- The in-memory form of the session state dictionary written by
`Session.save_state` and read back by `Session._load_state`
(`session_state.json`).  Speaker-profile keys are strings, as produced by
JSON serialization of integer dictionary keys.  The `updated` timestamp is
ignored on load and omitted. -/
structure RawState where
  name : String
  segmentCount : Nat
  tokens : List Token
  speakerProfiles : List (String × SpeakerProfile.Data)
  deriving DecidableEq, Repr, Inhabited

/-- What `Session._load_state` finds at the state file path: either the
file is unreadable / not valid JSON (`json.load` raises), or it parses to
a state dictionary. -/
inductive StateFileContent where
  | unreadable : StateFileContent
  | parsed : RawState → StateFileContent
  deriving DecidableEq, Repr, Inhabited

namespace Session

/-- `Session.save_state`: serialize segment count, token log and all
speaker profiles (integer keys become their decimal strings under JSON
serialization). -/
def save_state (s : Session) : RawState :=
  { name := s.name
    segmentCount := s.segmentCount
    tokens := s.finalTokens
    speakerProfiles := s.speakerProfiles.map (fun p => (pyStr p.1, p.2.to_dict)) }

/-- The profile-restore loop of `Session._load_state`: assign
`self.speaker_profiles[int(sid)] = SpeakerProfile.from_dict(int(sid), data)`
for each entry in order.  When `int(sid)` raises, the loop aborts with the
assignments made so far kept (the surrounding `try` swallows the
exception); the returned flag records whether the loop completed. -/
def restoreProfiles :
    List (String × SpeakerProfile.Data) → List (Int × SpeakerProfile) →
    List (Int × SpeakerProfile) × Bool
  | [], acc => (acc, true)
  | (sid, data) :: t, acc =>
    match pyInt sid with
    | some k => restoreProfiles t (dictSet acc k (SpeakerProfile.from_dict k data))
    | none => (acc, false)

/-- `Session._load_state`: if the state file exists, load it inside a
`try` block that assigns `segment_count` and `final_tokens`, then restores
the speaker profiles, then sets `_resumed = True`; any exception along the
way is swallowed, keeping the assignments already made. -/
def load_state (s : Session) (file : Option StateFileContent) : Session :=
  match file with
  | none => s
  | some .unreadable => s
  | some (.parsed state) =>
    let s1 := { s with segmentCount := state.segmentCount, finalTokens := state.tokens }
    let res := restoreProfiles state.speakerProfiles s1.speakerProfiles
    if res.2 then { s1 with speakerProfiles := res.1, resumed := true }
    else { s1 with speakerProfiles := res.1 }

/-- `Session.__init__`: fresh fields, then `_load_state` on whatever the
state file holds (`none` = no state file). -/
def create (name targetLanguage : String) (file : Option StateFileContent) : Session :=
  load_state
    { name := name, targetLanguage := targetLanguage, speakerProfiles := []
      finalTokens := [], segmentCount := 0, resumed := false }
    file

/-- `Session.was_resumed`. -/
def was_resumed (s : Session) : Bool := s.resumed

end Session

/-- The f-string rendering of an `Optional[str]` value (Python prints
`None` for the absent case, e.g. in `f"\n[{language}] "`). -/
def optStr : Option String → String
  | some l => l
  | none => "None"

/-- Model of Python `str.lstrip()` (strip leading whitespace), structural
on the character list so that it is kernel-computable. -/
def pyLstrip (s : String) : String :=
  ⟨s.data.dropWhile Char.isWhitespace⟩

/-- Model of Python `str.strip()` (strip leading and trailing
whitespace), structural on the character list so that it is
kernel-computable. -/
def pyStrip (s : String) : String :=
  ⟨((s.data.dropWhile Char.isWhitespace).reverse.dropWhile Char.isWhitespace).reverse⟩

/-- Fold state of `Session.render_plain_text` (`family_chat/session.py`):
the accumulated `text_parts`, the `current_speaker` / `current_language` /
`current_is_translation` trackers, and the session (mutated by
`get_speaker_profile` when it creates a profile). -/
structure PlainRenderState where
  parts : List String
  currentSpeaker : Option Int
  currentLanguage : Option String
  currentIsTranslation : Bool
  sess : Session
  deriving DecidableEq, Repr

/-- One iteration of the token loop of `Session.render_plain_text`. -/
def renderPlainStep (st : PlainRenderState) (token : Token) : PlainRenderState :=
  let text := token.text
  let speaker := token.speaker
  let language := token.language
  let is_translation := token.translationStatus = some "translation"
  let source_lang := token.sourceLanguage
  -- Skip translations of English (hardcoded: `source_lang == "en"`)
  if is_translation ∧ source_lang = some "en" then st
  else
    let stA :=
      match speaker with
      | none => st
      | some sp =>
        if st.currentSpeaker = some sp then st
        else
          let parts1 := if st.currentSpeaker.isSome then st.parts ++ ["\n\n"] else st.parts
          let pr := st.sess.get_speaker_profile sp
          let label := pr.1.get_label
          { parts := parts1 ++ [label ++ ":"]
            currentSpeaker := some sp
            currentLanguage := none
            currentIsTranslation := false
            sess := pr.2 }
    let lang_changed := language.isSome ∧ language ≠ stA.currentLanguage
    let translation_changed := is_translation ≠ stA.currentIsTranslation
    if lang_changed ∨ translation_changed then
      let ls := optStr language
      let marker := if is_translation then s!"\n  ↳ [{ls}] " else s!"\n[{ls}] "
      { stA with
        parts := stA.parts ++ [marker, pyLstrip text]
        currentLanguage := language
        currentIsTranslation := is_translation }
    else
      { stA with parts := stA.parts ++ [text] }

/-- The loop of `Session.render_plain_text` over an explicit token list,
returning the joined and stripped text along with the session (which the
loop can extend through `get_speaker_profile`). -/
def render_plain_text_core (s : Session) (tokens : List Token) : String × Session :=
  let st := tokens.foldl renderPlainStep
    { parts := [], currentSpeaker := none, currentLanguage := none
      currentIsTranslation := false, sess := s }
  (pyStrip (String.join st.parts), st.sess)

/-- `Session.render_plain_text`: render `self.final_tokens` as plain text
(the persisted `segment_*.txt` rendering). -/
def render_plain_text (s : Session) : String × Session :=
  render_plain_text_core s s.finalTokens

end FamilyChat

namespace LiveTranscriber

open FamilyChat

/-- `LIVE_VIEW_LINES = 24` in `live_transcriber/ui.py`. -/
def LIVE_VIEW_LINES : Nat := 24

/-- `SCROLL_PAGE_SIZE = 20` in `live_transcriber/ui.py`. -/
def SCROLL_PAGE_SIZE : Int := 20

/-- `LANGUAGE_COLORS` of `live_transcriber/ui.py` (presentation data used
by the rich renderer's styles). -/
def LANGUAGE_COLORS : List (String × String) :=
  [("en", "white"),
   ("de", "#87ceeb"), ("nl", "#add8e6"), ("da", "#b0c4de"), ("no", "#87cefa"),
   ("sv", "#a0c4e8"),
   ("es", "#d4af37"), ("fr", "#daa520"), ("it", "#f0c05a"), ("pt", "#e6be5a"),
   ("ro", "#cda434"), ("ca", "#d4a84b"), ("gl", "#c9a227"),
   ("ru", "#dda0dd"), ("pl", "#d8bfd8"), ("cs", "#e6a8d7"), ("sk", "#dbb2d1"),
   ("uk", "#da70d6"), ("bg", "#d291bc"), ("sr", "#c9a0dc"), ("hr", "#d7a9e3"),
   ("bs", "#cba4d4"), ("sl", "#d3a4d9"), ("mk", "#d8a1d4"),
   ("lt", "#40e0d0"), ("lv", "#48d1cc"), ("et", "#00ced1"), ("fi", "#5f9ea0"),
   ("hu", "#20b2aa"),
   ("el", "#9acd32"), ("eu", "#cd853f"),
   ("ar", "#cd7f32"), ("he", "#b87333"), ("fa", "#cc7722"), ("tr", "#d2691e"),
   ("ur", "#c2772e"),
   ("hi", "#ff7f50"), ("gu", "#fa8072"), ("mr", "#f08080"), ("pa", "#e9967a"),
   ("ta", "#ffa07a"), ("te", "#ff8c69"), ("ml", "#ff6f61"),
   ("zh", "#c41e3a"), ("ja", "#dc143c"), ("ko", "#b22234"),
   ("vi", "#90ee90"), ("th", "#98fb98"), ("id", "#8fbc8f"), ("ms", "#66cdaa"),
   ("tl", "#7cfc00")]

/-- `DEFAULT_LANGUAGE_COLOR` of `live_transcriber/ui.py`. -/
def DEFAULT_LANGUAGE_COLOR : String := "#d4af37"

/-- `SPEAKER_STYLES` of `live_transcriber/ui.py`: emoji / color pairs. -/
def SPEAKER_STYLES : List (String × String) :=
  [("🎄", "#98fb98"), ("🎅", "#ff6b6b"), ("✨", "#ffd700"), ("🎁", "#ff69b4"),
   ("🔔", "#ffb347"), ("🕯️", "#dda0dd"), ("🧦", "#87ceeb"), ("🍪", "#deb887"),
   ("☃️", "#e0ffff"), ("❄️", "#b0e0e6"), ("🦌", "#cd853f"), ("👵", "#f0e68c"),
   ("🎀", "#ffb6c1"), ("🧣", "#20b2aa")]

/-- `NegotiationUI._get_speaker_style`: `SPEAKER_STYLES[sid % 14]`
(Python's `%` on a positive modulus is `Int.emod`, which Lean's `%`
also is). -/
def get_speaker_style (speakerId : Int) : String × String :=
  (SPEAKER_STYLES.getD (speakerId % (SPEAKER_STYLES.length : Int)).toNat ("", ""))

/-- `NegotiationUI._get_language_color`. -/
def get_language_color (language : String) : String :=
  match LANGUAGE_COLORS.lookup language with
  | some c => c
  | none => DEFAULT_LANGUAGE_COLOR

/-- A rich-text segment: `(content, style)`; `rich.Text.append` with no
style is recorded with the empty style. -/
abbrev Seg := String × String

/-- `NegotiationUI._flush_buffers`: flush accumulated original +
translation runs onto the rich text, in parenthetical format, styled by
finality.  The `if lang` truthiness test treats both `None` and the empty
string as absent. -/
def flush_buffers (text : List Seg) (original translation : String)
    (lang : Option String) (is_final : Bool) : List Seg :=
  if original = "" ∧ translation = "" then text
  else
    let lang_color :=
      match lang with
      | some l => if l = "" then DEFAULT_LANGUAGE_COLOR else get_language_color l
      | none => DEFAULT_LANGUAGE_COLOR
    if is_final then
      let t1 := if original ≠ "" then text ++ [(original, lang_color)] else text
      if translation ≠ "" then
        t1 ++ [(" (", "dim"), (pyStrip translation, "white"), (")", "dim")]
      else t1
    else
      let st := s!"dim italic {lang_color}"
      let t1 := if original ≠ "" then text ++ [(original, st)] else text
      if translation ≠ "" then
        t1 ++ [(" (", "dim"), (pyStrip translation, "dim italic white"), (")", "dim")]
      else t1

/-- Fold state of `NegotiationUI._render_transcript`. -/
structure RichRenderState where
  text : List Seg
  currentSpeaker : Option Int
  originalBuffer : String
  translationBuffer : String
  currentLang : Option String
  bufferIsFinal : Bool
  sess : Session
  deriving DecidableEq, Repr

/-- One iteration of the token loop of
`NegotiationUI._render_transcript`. -/
def renderRichStep (st : RichRenderState) (token : Token) : RichRenderState :=
  let token_text := token.text
  let speaker := token.speaker
  let language := token.language
  let is_translation := token.translationStatus = some "translation"
  let is_final := token.isFinal
  let source_lang := token.sourceLanguage
  -- Skip translations when source language equals target language
  if is_translation ∧ source_lang = some st.sess.targetLanguage then st
  else
    let r1 :=
      match speaker with
      | none => (st, token_text)
      | some sp =>
        if st.currentSpeaker = some sp then (st, token_text)
        else
          let text1 := flush_buffers st.text st.originalBuffer st.translationBuffer
            st.currentLang st.bufferIsFinal
          let text2 := if st.currentSpeaker.isSome then text1 ++ [("\n\n", "")] else text1
          let style := get_speaker_style sp
          let emoji := style.1
          let speaker_color := style.2
          let pr := st.sess.get_speaker_profile sp
          let label := pr.1.get_label
          ({ text := text2 ++ [(s!"{emoji} {label}: ", s!"bold {speaker_color}")]
             currentSpeaker := some sp
             originalBuffer := ""
             translationBuffer := ""
             currentLang := language
             bufferIsFinal := true
             sess := pr.2 }, pyLstrip token_text)
    let stA := r1.1
    let text_now := r1.2
    let stB := if is_final then stA else { stA with bufferIsFinal := false }
    if is_translation then
      { stB with translationBuffer := stB.translationBuffer ++ text_now }
    else
      let stC :=
        if stB.translationBuffer ≠ "" then
          { stB with
            text := flush_buffers stB.text stB.originalBuffer stB.translationBuffer
              stB.currentLang stB.bufferIsFinal
            originalBuffer := ""
            translationBuffer := ""
            bufferIsFinal := is_final }
        else stB
      { stC with
        originalBuffer := stC.originalBuffer ++ text_now
        currentLang := language }

/-- The loop of `NegotiationUI._render_transcript` over an explicit token
list (in the code, `session.final_tokens + self._non_final_tokens`),
followed by the final flush.  Returns the rich text and the session,
which the loop can extend through `get_speaker_profile`. -/
def render_transcript_core (s : Session) (tokens : List Token) : List Seg × Session :=
  let st := tokens.foldl renderRichStep
    { text := [], currentSpeaker := none, originalBuffer := ""
      translationBuffer := "", currentLang := none, bufferIsFinal := true, sess := s }
  (flush_buffers st.text st.originalBuffer st.translationBuffer st.currentLang st.bufferIsFinal,
   st.sess)

/-- `NegotiationUI._render_transcript`: rich render over the finalized
token log followed by the non-final overlay. -/
def render_transcript (s : Session) (nonFinalTokens : List Token) : List Seg × Session :=
  render_transcript_core s (s.finalTokens ++ nonFinalTokens)

/-- Fold state of `NegotiationUI._render_transcript_plain`. -/
structure UIPlainState where
  parts : List String
  currentSpeaker : Option Int
  originalBuffer : String
  translationBuffer : String
  sess : Session
  deriving DecidableEq, Repr

/-- One iteration of the token loop of
`NegotiationUI._render_transcript_plain`. -/
def renderUIPlainStep (st : UIPlainState) (token : Token) : UIPlainState :=
  let text := token.text
  let speaker := token.speaker
  let is_translation := token.translationStatus = some "translation"
  let source_lang := token.sourceLanguage
  -- Skip translations when source language equals target language
  if is_translation ∧ source_lang = some st.sess.targetLanguage then st
  else
    let r1 :=
      match speaker with
      | none => (st, text)
      | some sp =>
        if st.currentSpeaker = some sp then (st, text)
        else
          let parts1 :=
            if st.originalBuffer ≠ "" then
              let p := st.parts ++ [st.originalBuffer]
              if st.translationBuffer ≠ "" then
                let tb := pyStrip st.translationBuffer
                p ++ [s!" ({tb})"]
              else p
            else st.parts
          let parts2 := if st.currentSpeaker.isSome then parts1 ++ ["\n\n"] else parts1
          let emoji := (get_speaker_style sp).1
          let pr := st.sess.get_speaker_profile sp
          let label := pr.1.get_label
          ({ parts := parts2 ++ [s!"{emoji} {label}: "]
             currentSpeaker := some sp
             originalBuffer := ""
             translationBuffer := ""
             sess := pr.2 }, pyLstrip text)
    let stA := r1.1
    let text_now := r1.2
    if is_translation then
      { stA with translationBuffer := stA.translationBuffer ++ text_now }
    else
      let stB :=
        if stA.translationBuffer ≠ "" then
          let tb := pyStrip stA.translationBuffer
          { stA with
            parts := stA.parts ++ [stA.originalBuffer, s!" ({tb})"]
            originalBuffer := ""
            translationBuffer := "" }
        else stA
      { stB with originalBuffer := stB.originalBuffer ++ text_now }

/-- The loop of `NegotiationUI._render_transcript_plain` over an explicit
token list, followed by the final flush and join. -/
def render_transcript_plain_core (s : Session) (tokens : List Token) : String × Session :=
  let st := tokens.foldl renderUIPlainStep
    { parts := [], currentSpeaker := none, originalBuffer := ""
      translationBuffer := "", sess := s }
  let parts :=
    if st.originalBuffer ≠ "" then
      let p := st.parts ++ [st.originalBuffer]
      if st.translationBuffer ≠ "" then
        let tb := pyStrip st.translationBuffer
        p ++ [s!" ({tb})"]
      else p
    else st.parts
  (String.join parts, st.sess)

/-- `NegotiationUI._render_transcript_plain`: the plain-text scrollback
render over the finalized token log. -/
def render_transcript_plain (s : Session) : String × Session :=
  render_transcript_plain_core s s.finalTokens

/-- The scroll-window state of `NegotiationUI`: `_scroll_offset` and
`_scroll_total_lines` (Python integers). -/
structure ScrollState where
  offset : Int
  totalLines : Int
  deriving DecidableEq, Repr

/-- `NegotiationUI._scroll_up`: `offset = max(0, offset - n)`. -/
def scroll_up (st : ScrollState) (n : Int) : ScrollState :=
  { st with offset := max 0 (st.offset - n) }

/-- `NegotiationUI._scroll_down`:
`offset = min(max(0, total_lines - SCROLL_PAGE_SIZE), offset + n)`. -/
def scroll_down (st : ScrollState) (n : Int) : ScrollState :=
  let max_off := max 0 (st.totalLines - SCROLL_PAGE_SIZE)
  { st with offset := min max_off (st.offset + n) }

/-- `NegotiationUI._scroll_to_top`. -/
def scroll_to_top (st : ScrollState) : ScrollState :=
  { st with offset := 0 }

/-- `NegotiationUI._scroll_to_bottom`:
`offset = max(0, total_lines - SCROLL_PAGE_SIZE)`. -/
def scroll_to_bottom (st : ScrollState) : ScrollState :=
  { st with offset := max 0 (st.totalLines - SCROLL_PAGE_SIZE) }

/-- `NegotiationUI._enter_scroll_mode`: does nothing when the token log is
empty (only an error message is shown); otherwise recomputes
`_scroll_total_lines` from a fresh render (`newTotalLines`, the length of
a `split("\n")`, hence nonnegative) and shows the tail page. -/
def enter_scroll_mode (st : ScrollState) (tokensEmpty : Bool) (newTotalLines : Nat) :
    ScrollState :=
  if tokensEmpty then st
  else
    { offset := max 0 ((newTotalLines : Int) - SCROLL_PAGE_SIZE)
      totalLines := (newTotalLines : Int) }

/-- One scroll operation, as dispatched by
`NegotiationUI._handle_scroll_key` and `_handle_live_key`: `k`/`UP` and
`j`/`DOWN` scroll by 1, `u`/`PAGEUP` and `d`/`PAGEDOWN` scroll by
`SCROLL_PAGE_SIZE - 2`, `g` / `G` jump to the ends, `v` (re-)enters
scroll mode.  The scroll amounts `n` used by the code are the naturals
1 and 18. -/
inductive ScrollOp where
  | up (n : Nat)
  | down (n : Nat)
  | pageUp
  | pageDown
  | toTop
  | toBottom
  | enter (tokensEmpty : Bool) (newTotalLines : Nat)
  deriving DecidableEq, Repr

/-- Apply one scroll operation to the scroll state. -/
def applyScrollOp (st : ScrollState) : ScrollOp → ScrollState
  | .up n => scroll_up st (n : Int)
  | .down n => scroll_down st (n : Int)
  | .pageUp => scroll_up st (SCROLL_PAGE_SIZE - 2)
  | .pageDown => scroll_down st (SCROLL_PAGE_SIZE - 2)
  | .toTop => scroll_to_top st
  | .toBottom => scroll_to_bottom st
  | .enter e t => enter_scroll_mode st e t

/-- Run a sequence of scroll operations from the initial state
(`_scroll_offset = 0`) at a given total line count. -/
def runScrollOps (totalLines : Int) (ops : List ScrollOp) : ScrollState :=
  ops.foldl applyScrollOp { offset := 0, totalLines := totalLines }

end LiveTranscriber

/-! ## Helper lemmas -/

namespace FamilyChat

/-- Documentation bridge: the computable threshold constant is the
rational `0.5` that the Python source compares against. -/
theorem LANGUAGE_CONFIDENCE_THRESHOLD_eq : LANGUAGE_CONFIDENCE_THRESHOLD = (0.5 : ℚ) := by
  norm_num [LANGUAGE_CONFIDENCE_THRESHOLD]

/-- Documentation bridge: `mkRat a b` is the rational division
`(a : ℚ) / b` (for `b = 0` both sides are `0`), so the `mkRat`-phrased
ratios in `get_speaker_type` are the source's ratios. -/
theorem mkRat_eq_div_nat (a b : Nat) : mkRat (a : Int) b = (a : ℚ) / (b : ℚ) := by
  rw [Rat.mkRat_eq_div]; push_cast; ring

/-- Documentation bridge: the `mkRat 4 5` threshold in `get_speaker_type`
is the rational `0.8` of the source. -/
theorem ratio_threshold_eq : mkRat 4 5 = (0.8 : ℚ) := by norm_num

theorem lookupCount_bumpCount_self (l : List (String × Nat)) (k : String) :
    lookupCount (bumpCount l k) k = lookupCount l k + 1 := by
  induction l with
  | nil => simp [bumpCount, lookupCount]
  | cons p t ih =>
    obtain ⟨a, n⟩ := p
    by_cases h : a = k
    · subst h; simp [bumpCount, lookupCount]
    · simp [bumpCount, lookupCount, h, ih]

theorem lookupCount_bumpCount_ne (l : List (String × Nat)) (k k' : String) (h : k' ≠ k) :
    lookupCount (bumpCount l k) k' = lookupCount l k' := by
  induction l with
  | nil => simp [bumpCount, lookupCount, Ne.symm h]
  | cons p t ih =>
    obtain ⟨a, n⟩ := p
    by_cases ha : a = k
    · subst ha; simp [bumpCount, lookupCount, Ne.symm h]
    · simp [bumpCount, lookupCount, ha, ih]

theorem sum_bumpCount (l : List (String × Nat)) (k : String) :
    ((bumpCount l k).map Prod.snd).sum = (l.map Prod.snd).sum + 1 := by
  induction l with
  | nil => simp [bumpCount]
  | cons p t ih =>
    obtain ⟨a, n⟩ := p
    by_cases h : a = k
    · subst h; simp [bumpCount]; omega
    · simp [bumpCount, h, ih]; omega

theorem dictGet_dictSet_self (l : List (Int × SpeakerProfile)) (k : Int) (v : SpeakerProfile) :
    dictGet (dictSet l k v) k = some v := by
  induction l with
  | nil => simp [dictSet, dictGet]
  | cons p t ih =>
    obtain ⟨a, b⟩ := p
    by_cases h : a = k
    · subst h; simp [dictSet, dictGet]
    · simp [dictSet, dictGet, h, ih]

theorem dictGet_dictSet_ne (l : List (Int × SpeakerProfile)) (k k' : Int) (v : SpeakerProfile)
    (h : k' ≠ k) : dictGet (dictSet l k v) k' = dictGet l k' := by
  induction l with
  | nil => simp [dictSet, dictGet, Ne.symm h]
  | cons p t ih =>
    obtain ⟨a, b⟩ := p
    by_cases ha : a = k
    · subst ha; simp [dictSet, dictGet, Ne.symm h]
    · simp [dictSet, dictGet, ha, ih]

theorem dictGet_append_none {l1 : List (Int × SpeakerProfile)} {k : Int}
    (h : dictGet l1 k = none) (l2 : List (Int × SpeakerProfile)) :
    dictGet (l1 ++ l2) k = dictGet l2 k := by
  induction l1 with
  | nil => simp
  | cons p t ih =>
    obtain ⟨a, b⟩ := p
    by_cases ha : a = k
    · simp [dictGet, ha] at h
    · simp [dictGet, ha] at h ⊢
      exact ih h

theorem dictGet_append_single_ne (l : List (Int × SpeakerProfile)) (k k' : Int)
    (v : SpeakerProfile) (h : k' ≠ k) : dictGet (l ++ [(k, v)]) k' = dictGet l k' := by
  induction l with
  | nil => simp [dictGet, Ne.symm h]
  | cons p t ih =>
    obtain ⟨a, b⟩ := p
    by_cases ha : a = k'
    · subst ha; simp [dictGet]
    · simp [dictGet, ha, ih]

/-- `get_speaker_profile` leaves the lookup of every other key
unchanged. -/
theorem get_speaker_profile_dictGet_ne (s : Session) (sid sid' : Int) (h : sid' ≠ sid) :
    dictGet (s.get_speaker_profile sid).2.speakerProfiles sid' =
      dictGet s.speakerProfiles sid' := by
  unfold Session.get_speaker_profile
  cases hl : dictGet s.speakerProfiles sid with
  | some p => simp
  | none =>
    simpa using dictGet_append_single_ne s.speakerProfiles sid sid' (SpeakerProfile.init sid) h

/-- After `get_speaker_profile`, the returned profile is bound to the
key. -/
theorem get_speaker_profile_dictGet_self (s : Session) (sid : Int) :
    dictGet (s.get_speaker_profile sid).2.speakerProfiles sid =
      some (s.get_speaker_profile sid).1 := by
  unfold Session.get_speaker_profile
  cases hl : dictGet s.speakerProfiles sid with
  | some p => simpa using hl
  | none =>
    simp only
    rw [dictGet_append_none hl]
    simp [dictGet]

/-- `get_speaker_profile` only ever touches the profile map. -/
theorem get_speaker_profile_frame (s : Session) (sid : Int) :
    (s.get_speaker_profile sid).2.finalTokens = s.finalTokens ∧
      (s.get_speaker_profile sid).2.segmentCount = s.segmentCount ∧
      (s.get_speaker_profile sid).2.targetLanguage = s.targetLanguage ∧
      (s.get_speaker_profile sid).2.name = s.name ∧
      (s.get_speaker_profile sid).2.resumed = s.resumed := by
  unfold Session.get_speaker_profile
  cases hl : dictGet s.speakerProfiles sid <;> simp

end FamilyChat

/-! ## Decimal round trip for the JSON string keys -/

namespace FamilyChat

theorem natDigits_ne_nil (n : Nat) : natDigits n ≠ [] := by
  rw [natDigits]
  split
  · simp
  · simp

theorem digitVal_digitChar (d : Nat) (h : d < 10) : digitVal (digitChar d) = some d := by
  interval_cases d <;> rfl

theorem digitChar_ne_dash (d : Nat) : digitChar d ≠ '-' := by
  unfold digitChar
  split <;> decide

theorem parseNatFrom_append (acc : Nat) (l1 l2 : List Char) :
    parseNatFrom acc (l1 ++ l2) =
      match parseNatFrom acc l1 with
      | some a => parseNatFrom a l2
      | none => none := by
  induction l1 generalizing acc with
  | nil => simp [parseNatFrom]
  | cons c t ih =>
    simp only [List.cons_append, parseNatFrom]
    cases digitVal c with
    | some d => exact ih (acc * 10 + d)
    | none => rfl

theorem parseNatFrom_natDigits (n : Nat) :
    ∀ acc : Nat, parseNatFrom acc (natDigits n) =
      some (acc * 10 ^ (natDigits n).length + n) := by
  induction n using Nat.strong_induction_on with
  | _ n ih =>
    intro acc
    rw [natDigits]
    split
    · rename_i h
      simp [parseNatFrom, digitVal_digitChar n h]
    · rename_i h
      have hlt : n / 10 < n := Nat.div_lt_self (by omega) (by omega)
      rw [parseNatFrom_append, ih (n / 10) hlt acc]
      have hmod : digitVal (digitChar (n % 10)) = some (n % 10) :=
        digitVal_digitChar _ (Nat.mod_lt n (by omega))
      simp only [parseNatFrom, hmod, List.length_append, List.length_singleton]
      rw [pow_succ, ← mul_assoc]
      congr 1
      generalize acc * 10 ^ (natDigits (n / 10)).length = m
      omega

theorem parseNatDigits_natDigits (n : Nat) : parseNatDigits (natDigits n) = some n := by
  obtain ⟨c, t, hct⟩ : ∃ c t, natDigits n = c :: t := by
    cases h : natDigits n with
    | nil => exact absurd h (natDigits_ne_nil n)
    | cons c t => exact ⟨c, t, rfl⟩
  have := parseNatFrom_natDigits n 0
  rw [hct] at this ⊢
  simpa [parseNatDigits] using this

theorem natDigits_head_digit (n : Nat) :
    ∃ d t, d < 10 ∧ natDigits n = digitChar d :: t := by
  induction n using Nat.strong_induction_on with
  | _ n ih =>
    rw [natDigits]
    split
    · rename_i h
      exact ⟨n, [], h, rfl⟩
    · rename_i h
      have hlt : n / 10 < n := Nat.div_lt_self (by omega) (by omega)
      obtain ⟨d, t, hd, ht⟩ := ih (n / 10) hlt
      exact ⟨d, t ++ [digitChar (n % 10)], hd, by rw [ht]; rfl⟩

/-- Parsing back the decimal string of an integer key recovers the key:
`int(str(i)) == i`. -/
theorem pyInt_pyStr (i : Int) : pyInt (pyStr i) = some i := by
  by_cases h : i < 0
  · have hdata : (pyStr i).data = '-' :: natDigits i.natAbs := by
      simp [pyStr, h]
    rw [pyInt, hdata]
    simp only [pyIntChars, if_true, parseNatDigits_natDigits i.natAbs, Option.some.injEq]
    omega
  · obtain ⟨d, t, hd, ht⟩ := natDigits_head_digit i.natAbs
    have hdata : (pyStr i).data = natDigits i.natAbs := by
      simp [pyStr, h]
    have hp : parseNatDigits (digitChar d :: t) = some i.natAbs := by
      rw [← ht]
      exact parseNatDigits_natDigits i.natAbs
    rw [pyInt, hdata, ht]
    simp only [pyIntChars, if_neg (digitChar_ne_dash d), hp, Option.some.injEq]
    omega

end FamilyChat

/-! ## Claims about `resolve_language` (C1, C2, C10) -/

open FamilyChat in
/-- C1: for every token that carries a speaker id, a non-null language,
and (effective) `language_confidence >= 0.5`, `resolve_language` returns
the token's stated language and records exactly one sample on that
speaker's profile: the count for that language increases by 1,
`last_language` is set to that language, `total_samples` increases by 1,
the counts of all other languages are unchanged, and all other speakers'
profiles are unchanged. -/
theorem resolve_language_high_confidence_records (s : Session) (t : Token) (sid : Int)
    (lang : String) (hs : t.speaker = some sid) (hl : t.language = some lang)
    (hc : LANGUAGE_CONFIDENCE_THRESHOLD ≤ t.languageConfidence.getD 1) :
    (resolve_language t s).1 = lang ∧
    dictGet (resolve_language t s).2.speakerProfiles sid =
      some ((s.get_speaker_profile sid).1.add_sample lang) ∧
    lookupCount ((s.get_speaker_profile sid).1.add_sample lang).languageCounts lang =
      lookupCount (s.get_speaker_profile sid).1.languageCounts lang + 1 ∧
    ((s.get_speaker_profile sid).1.add_sample lang).lastLanguage = some lang ∧
    ((s.get_speaker_profile sid).1.add_sample lang).totalSamples =
      (s.get_speaker_profile sid).1.totalSamples + 1 ∧
    (∀ l, l ≠ lang →
      lookupCount ((s.get_speaker_profile sid).1.add_sample lang).languageCounts l =
        lookupCount (s.get_speaker_profile sid).1.languageCounts l) ∧
    (∀ sid', sid' ≠ sid →
      dictGet (resolve_language t s).2.speakerProfiles sid' = dictGet s.speakerProfiles sid') := by
  have hnc : ¬ (t.languageConfidence.getD 1 < LANGUAGE_CONFIDENCE_THRESHOLD) := not_lt.mpr hc
  simp only [resolve_language, hs, hnc, if_false, resolveRecord, hl]
  refine ⟨trivial, ?_, ?_, ?_, ?_, ?_, ?_⟩
  · exact dictGet_dictSet_self _ _ _
  · exact lookupCount_bumpCount_self _ _
  · rfl
  · rfl
  · intro l hne
    exact lookupCount_bumpCount_ne _ _ _ hne
  · intro sid' hne
    rw [dictGet_dictSet_ne _ _ _ _ hne]
    exact get_speaker_profile_dictGet_ne s sid sid' hne

open FamilyChat in
/-- Witness for C1: a concrete high-confidence token records its sample
and is returned unchanged. -/
theorem resolve_language_high_confidence_records_witness :
    (resolve_language
      { text := "你好", speaker := some 1, language := some "zh",
        languageConfidence := some (mkRat 9 10), isFinal := true,
        translationStatus := none, sourceLanguage := none }
      { name := "demo", targetLanguage := "en",
        speakerProfiles :=
          [(1, { speakerId := 1, languageCounts := [("zh", 2)],
                 lastLanguage := some "zh", totalSamples := 2 })],
        finalTokens := [], segmentCount := 0, resumed := false }).1 = "zh" := by
  exact (resolve_language_high_confidence_records _ _ 1 "zh" rfl rfl (by decide)).1

open FamilyChat in
/-- C2: for every token with a speaker id and effective confidence below
the threshold whose speaker profile already has a `last_language`,
`resolve_language` returns that `last_language` and leaves the whole
session — in particular the profile — unchanged. -/
theorem resolve_language_low_confidence_frame (s : Session) (t : Token) (sid : Int)
    (p : SpeakerProfile) (last : String) (hs : t.speaker = some sid)
    (hp : dictGet s.speakerProfiles sid = some p) (hL : p.lastLanguage = some last)
    (hc : t.languageConfidence.getD 1 < LANGUAGE_CONFIDENCE_THRESHOLD) :
    resolve_language t s = (last, s) := by
  simp only [resolve_language, hs, Session.get_speaker_profile, hp, hc, if_true, hL]

open FamilyChat in
/-- Witness for C2: a concrete low-confidence token is resolved to the
profile's last language with the session untouched. -/
theorem resolve_language_low_confidence_frame_witness :
    resolve_language
      { text := "hm", speaker := some 1, language := some "en",
        languageConfidence := some (mkRat 3 10), isFinal := true,
        translationStatus := none, sourceLanguage := none }
      { name := "demo", targetLanguage := "en",
        speakerProfiles :=
          [(1, { speakerId := 1, languageCounts := [("zh", 2)],
                 lastLanguage := some "zh", totalSamples := 2 })],
        finalTokens := [], segmentCount := 0, resumed := false } =
      ("zh",
       { name := "demo", targetLanguage := "en",
         speakerProfiles :=
           [(1, { speakerId := 1, languageCounts := [("zh", 2)],
                  lastLanguage := some "zh", totalSamples := 2 })],
         finalTokens := [], segmentCount := 0, resumed := false }) := by
  exact resolve_language_low_confidence_frame _ _ 1
    { speakerId := 1, languageCounts := [("zh", 2)],
      lastLanguage := some "zh", totalSamples := 2 }
    "zh" rfl (by decide) rfl (by decide)

open FamilyChat in
/-- C10: a token with a speaker id and a stated language whose speaker
profile has no `last_language` yet is recorded and its stated language
returned regardless of `language_confidence` (also below the threshold);
and a token with no `language_confidence` field behaves exactly as
confidence `1.0`. -/
theorem resolve_language_first_evidence (s : Session) (t : Token) (sid : Int)
    (lang : String) (hs : t.speaker = some sid) (hl : t.language = some lang)
    (hlast : (s.get_speaker_profile sid).1.lastLanguage = none) :
    (resolve_language t s).1 = lang ∧
    dictGet (resolve_language t s).2.speakerProfiles sid =
      some ((s.get_speaker_profile sid).1.add_sample lang) ∧
    (∀ (t2 : Token) (s2 : Session),
      resolve_language { t2 with languageConfidence := none } s2 =
        resolve_language { t2 with languageConfidence := some 1 } s2) := by
  refine ⟨?_, ?_, ?_⟩
  · simp only [resolve_language, hs]
    by_cases hc : t.languageConfidence.getD 1 < LANGUAGE_CONFIDENCE_THRESHOLD
    · simp only [hc, if_true, hlast, resolveRecord, hl]
    · simp only [hc, if_false, resolveRecord, hl]
  · simp only [resolve_language, hs]
    by_cases hc : t.languageConfidence.getD 1 < LANGUAGE_CONFIDENCE_THRESHOLD
    · simp only [hc, if_true, hlast, resolveRecord, hl]
      exact dictGet_dictSet_self _ _ _
    · simp only [hc, if_false, resolveRecord, hl]
      exact dictGet_dictSet_self _ _ _
  · intro t2 s2
    rfl

open FamilyChat in
/-- Witness for C10: a concrete low-confidence first-evidence token is
recorded. -/
theorem resolve_language_first_evidence_witness :
    (resolve_language
      { text := "שלום", speaker := some 2, language := some "he",
        languageConfidence := some (mkRat 1 10), isFinal := true,
        translationStatus := none, sourceLanguage := none }
      { name := "demo", targetLanguage := "en", speakerProfiles := [],
        finalTokens := [], segmentCount := 0, resumed := false }).1 = "he" :=
  (resolve_language_first_evidence
    { name := "demo", targetLanguage := "en", speakerProfiles := [],
      finalTokens := [], segmentCount := 0, resumed := false }
    { text := "שלום", speaker := some 2, language := some "he",
      languageConfidence := some (mkRat 1 10), isFinal := true,
      translationStatus := none, sourceLanguage := none }
    2 "he" rfl rfl rfl).1

/-! ## Claims about session persistence (C4, C5) -/

namespace FamilyChat

theorem dictSet_of_none {l : List (Int × SpeakerProfile)} {k : Int}
    (h : dictGet l k = none) (v : SpeakerProfile) : dictSet l k v = l ++ [(k, v)] := by
  induction l with
  | nil => rfl
  | cons p t ih =>
    obtain ⟨a, b⟩ := p
    by_cases ha : a = k
    · simp [dictGet, ha] at h
    · simp [dictGet, ha] at h
      simp [dictSet, ha, ih h]

theorem restoreProfiles_map (l : List (Int × SpeakerProfile))
    (acc : List (Int × SpeakerProfile)) :
    Session.restoreProfiles (l.map (fun p => (pyStr p.1, p.2.to_dict))) acc =
      (l.foldl (fun a p => dictSet a p.1 (SpeakerProfile.from_dict p.1 p.2.to_dict)) acc,
        true) := by
  induction l generalizing acc with
  | nil => rfl
  | cons p t ih =>
    simp only [List.map_cons, Session.restoreProfiles, pyInt_pyStr p.1, List.foldl_cons]
    exact ih _

theorem foldl_dictSet_fresh (l : List (Int × SpeakerProfile)) :
    ∀ acc : List (Int × SpeakerProfile),
    (∀ k ∈ l.map Prod.fst, dictGet acc k = none) → (l.map Prod.fst).Nodup →
    l.foldl (fun a p => dictSet a p.1 (SpeakerProfile.from_dict p.1 p.2.to_dict)) acc =
      acc ++ l.map (fun p => (p.1, SpeakerProfile.from_dict p.1 p.2.to_dict)) := by
  induction l with
  | nil => intro acc _ _; simp
  | cons p t ih =>
    intro acc hfresh hnodup
    obtain ⟨k, q⟩ := p
    have hk : dictGet acc k = none := hfresh k (by simp)
    have hkt : ∀ k' ∈ t.map Prod.fst, dictGet (acc ++ [(k, SpeakerProfile.from_dict k q.to_dict)]) k' = none := by
      intro k' hk'
      have hne : k' ≠ k := by
        intro hcontra
        subst hcontra
        simp only [List.map_cons, List.nodup_cons] at hnodup
        exact hnodup.1 hk'
      rw [dictGet_append_single_ne _ _ _ _ hne]
      exact hfresh k' (by simp [hk'])
    have hnt : (t.map Prod.fst).Nodup := by
      simp only [List.map_cons, List.nodup_cons] at hnodup
      exact hnodup.2
    simp only [List.foldl_cons, dictSet_of_none hk]
    rw [ih _ hkt hnt]
    simp

theorem dictGet_map_keyed (l : List (Int × SpeakerProfile))
    (g : Int → SpeakerProfile → SpeakerProfile) (sid : Int) :
    dictGet (l.map (fun p => (p.1, g p.1 p.2))) sid = (dictGet l sid).map (g sid) := by
  induction l with
  | nil => rfl
  | cons p t ih =>
    obtain ⟨a, b⟩ := p
    by_cases ha : a = sid
    · subst ha; simp [dictGet]
    · simp [dictGet, ha, ih]

end FamilyChat

open FamilyChat in
/-- C4: saving a session's state and constructing a new `Session` over the
resulting state file reproduces identical `final_tokens`, identical
`segment_count`, and, for every speaker id, an identical profile view
(`language_counts`, `last_language`, `total_samples`, i.e. `to_dict`).
Profile keys of a Python `dict` are necessarily distinct, which is the
`Nodup` hypothesis on the embedded association list. -/
theorem session_state_round_trip (s : Session)
    (hnodup : (s.speakerProfiles.map Prod.fst).Nodup) :
    (Session.create s.name s.targetLanguage
        (some (StateFileContent.parsed s.save_state))).finalTokens = s.finalTokens ∧
    (Session.create s.name s.targetLanguage
        (some (StateFileContent.parsed s.save_state))).segmentCount = s.segmentCount ∧
    ∀ sid : Int,
      (dictGet (Session.create s.name s.targetLanguage
        (some (StateFileContent.parsed s.save_state))).speakerProfiles sid).map
          SpeakerProfile.to_dict =
        (dictGet s.speakerProfiles sid).map SpeakerProfile.to_dict := by
  simp only [Session.create, Session.load_state, Session.save_state, restoreProfiles_map,
    if_true]
  refine ⟨trivial, trivial, ?_⟩
  intro sid
  rw [foldl_dictSet_fresh s.speakerProfiles [] (by intro k hk; rfl) hnodup]
  simp only [List.nil_append]
  rw [dictGet_map_keyed s.speakerProfiles (fun k p => SpeakerProfile.from_dict k p.to_dict) sid]
  cases dictGet s.speakerProfiles sid <;> rfl

open FamilyChat in
/-- Witness for C4: a concrete two-speaker session round-trips. -/
theorem session_state_round_trip_witness :
    (dictGet (Session.create "demo" "en"
        (some (StateFileContent.parsed (Session.save_state
          { name := "demo", targetLanguage := "en",
            speakerProfiles :=
              [(0, { speakerId := 0, languageCounts := [("en", 3)],
                     lastLanguage := some "en", totalSamples := 3 }),
               (1, { speakerId := 1, languageCounts := [("zh", 2), ("en", 1)],
                     lastLanguage := some "en", totalSamples := 3 })],
            finalTokens := [], segmentCount := 2, resumed := false })))).speakerProfiles
        1).map SpeakerProfile.to_dict =
      (dictGet
        [(0, { speakerId := 0, languageCounts := [("en", 3)],
               lastLanguage := some "en", totalSamples := 3 }),
         (1, { speakerId := 1, languageCounts := [("zh", 2), ("en", 1)],
               lastLanguage := some "en", totalSamples := 3 })]
        1).map SpeakerProfile.to_dict :=
  (session_state_round_trip
    { name := "demo", targetLanguage := "en",
      speakerProfiles :=
        [(0, { speakerId := 0, languageCounts := [("en", 3)],
               lastLanguage := some "en", totalSamples := 3 }),
         (1, { speakerId := 1, languageCounts := [("zh", 2), ("en", 1)],
               lastLanguage := some "en", totalSamples := 3 })],
      finalTokens := [], segmentCount := 2, resumed := false }
    (by decide)).2.2 1

open FamilyChat in
/-- Counterexample to C5 as stated: a state file that is valid JSON but
holds a speaker id that fails integer parsing (`"x"`) does not yield a
fresh, empty session — `segment_count` and the token log are already
assigned when the restore loop raises, and only then is the exception
swallowed.  The session is not empty, although `was_resumed` is indeed
false and construction does not raise. -/
theorem session_load_invalid_not_fresh :
    (Session.create "s" "en" (some (StateFileContent.parsed
      { name := "s", segmentCount := 3,
        tokens := [{ text := "hi", speaker := some 0, language := some "en",
                     languageConfidence := some 1, isFinal := true,
                     translationStatus := none, sourceLanguage := none }],
        speakerProfiles := [("x", { languageCounts := [], lastLanguage := none,
                                    totalSamples := 0 })] }))).finalTokens ≠ [] ∧
    (Session.create "s" "en" (some (StateFileContent.parsed
      { name := "s", segmentCount := 3,
        tokens := [{ text := "hi", speaker := some 0, language := some "en",
                     languageConfidence := some 1, isFinal := true,
                     translationStatus := none, sourceLanguage := none }],
        speakerProfiles := [("x", { languageCounts := [], lastLanguage := none,
                                    totalSamples := 0 })] }))).segmentCount = 3 ∧
    (Session.create "s" "en" (some (StateFileContent.parsed
      { name := "s", segmentCount := 3,
        tokens := [{ text := "hi", speaker := some 0, language := some "en",
                     languageConfidence := some 1, isFinal := true,
                     translationStatus := none, sourceLanguage := none }],
        speakerProfiles := [("x", { languageCounts := [], lastLanguage := none,
                                    totalSamples := 0 })] }))).was_resumed = false := by
  refine ⟨by decide, by decide, by decide⟩

open FamilyChat in
/-- C5 (amended): when the state file is missing or fails JSON parsing
(truncated / unreadable), constructing the `Session` does not raise and
yields a fresh, empty session: `was_resumed` is false, `final_tokens` is
empty, `segment_count` is 0, and `speaker_profiles` is empty.  (A file
that parses as JSON but contains an unparseable speaker id instead keeps
the already-assigned tokens and segment count, with `was_resumed` still
false — see the counterexample.) -/
theorem session_load_unreadable_fresh (name target : String) :
    Session.create name target none =
      { name := name, targetLanguage := target, speakerProfiles := [],
        finalTokens := [], segmentCount := 0, resumed := false } ∧
    Session.create name target (some StateFileContent.unreadable) =
      { name := name, targetLanguage := target, speakerProfiles := [],
        finalTokens := [], segmentCount := 0, resumed := false } :=
  ⟨rfl, rfl⟩

/-! ## Claims about speaker classification and the profile invariant (C3, C8) -/

open FamilyChat in
/-- C3: `get_speaker_type` returns nothing below
`MIN_SAMPLES_FOR_LABELING` samples and when both reference-language
counts are zero; otherwise an `"en"` ratio `≥ 0.8` classifies as
`"English"`, a `"zh"` ratio `≥ 0.8` as `"Chinese"`, anything else as
`"Bilingual"`; 9 `"en"` + 1 `"zh"` samples classify as `"English"` and
5 + 5 as `"Bilingual"`. -/
theorem get_speaker_type_classification :
    (∀ p : SpeakerProfile,
      p.totalSamples < MIN_SAMPLES_FOR_LABELING → p.get_speaker_type = none) ∧
    (∀ p : SpeakerProfile,
      lookupCount p.languageCounts "en" = 0 → lookupCount p.languageCounts "zh" = 0 →
      p.get_speaker_type = none) ∧
    (∀ p : SpeakerProfile,
      MIN_SAMPLES_FOR_LABELING ≤ p.totalSamples →
      0 < lookupCount p.languageCounts "en" + lookupCount p.languageCounts "zh" →
      ((mkRat (lookupCount p.languageCounts "en")
          (lookupCount p.languageCounts "en" + lookupCount p.languageCounts "zh") ≥ mkRat 4 5 →
        p.get_speaker_type = some "English") ∧
       (¬ (mkRat (lookupCount p.languageCounts "en")
          (lookupCount p.languageCounts "en" + lookupCount p.languageCounts "zh") ≥ mkRat 4 5) →
        mkRat (lookupCount p.languageCounts "zh")
          (lookupCount p.languageCounts "en" + lookupCount p.languageCounts "zh") ≥ mkRat 4 5 →
        p.get_speaker_type = some "Chinese") ∧
       (¬ (mkRat (lookupCount p.languageCounts "en")
          (lookupCount p.languageCounts "en" + lookupCount p.languageCounts "zh") ≥ mkRat 4 5) →
        ¬ (mkRat (lookupCount p.languageCounts "zh")
          (lookupCount p.languageCounts "en" + lookupCount p.languageCounts "zh") ≥ mkRat 4 5) →
        p.get_speaker_type = some "Bilingual"))) ∧
    ((((List.replicate 9 "en" ++ List.replicate 1 "zh").foldl
        SpeakerProfile.add_sample (SpeakerProfile.init 1)).get_speaker_type) = some "English") ∧
    ((((List.replicate 5 "en" ++ List.replicate 5 "zh").foldl
        SpeakerProfile.add_sample (SpeakerProfile.init 1)).get_speaker_type) = some "Bilingual") := by
  refine ⟨?_, ?_, ?_, by decide, by decide⟩
  · intro p h
    simp [SpeakerProfile.get_speaker_type, h]
  · intro p h1 h2
    simp only [SpeakerProfile.get_speaker_type, h1, h2]
    split
    · rfl
    · simp
  · intro p hge hpos
    have hnl : ¬ p.totalSamples < MIN_SAMPLES_FOR_LABELING := not_lt.mpr hge
    have hnz : ¬ (lookupCount p.languageCounts "en" + lookupCount p.languageCounts "zh" = 0) := by
      omega
    refine ⟨?_, ?_, ?_⟩
    · intro h8
      simp [SpeakerProfile.get_speaker_type, hnl, hnz, h8]
    · intro h8 hz8
      simp [SpeakerProfile.get_speaker_type, hnl, hnz, h8, hz8]
    · intro h8 hz8
      simp [SpeakerProfile.get_speaker_type, hnl, hnz, h8, hz8]

open FamilyChat in
/-- Witness for C3: concrete profiles exercising the insufficient-evidence
branch and the ratio branches. -/
theorem get_speaker_type_classification_witness :
    SpeakerProfile.get_speaker_type
      { speakerId := 1, languageCounts := [("en", 4)],
        lastLanguage := some "en", totalSamples := 4 } = none ∧
    SpeakerProfile.get_speaker_type
      { speakerId := 1, languageCounts := [("en", 9), ("zh", 1)],
        lastLanguage := some "zh", totalSamples := 10 } = some "English" ∧
    SpeakerProfile.get_speaker_type
      { speakerId := 1, languageCounts := [("en", 1), ("zh", 9)],
        lastLanguage := some "zh", totalSamples := 10 } = some "Chinese" ∧
    SpeakerProfile.get_speaker_type
      { speakerId := 1, languageCounts := [("en", 5), ("zh", 5)],
        lastLanguage := some "zh", totalSamples := 10 } = some "Bilingual" := by
  refine ⟨?_, ?_, ?_, ?_⟩
  · exact get_speaker_type_classification.1 _ (by decide)
  · exact (get_speaker_type_classification.2.2.1 _ (by decide) (by decide)).1 (by decide)
  · exact (get_speaker_type_classification.2.2.1 _ (by decide) (by decide)).2.1
      (by decide) (by decide)
  · exact (get_speaker_type_classification.2.2.1 _ (by decide) (by decide)).2.2
      (by decide) (by decide)

open FamilyChat in
/-- C8: the invariant `total_samples == sum(language_counts.values())`
holds after construction, is preserved by `add_sample` (hence by any
sequence of recorded samples), by `to_dict`, and by `from_dict` of a
dictionary produced by `to_dict`. -/
theorem profile_total_samples_invariant :
    (∀ sid : Int,
      (SpeakerProfile.init sid).totalSamples =
        ((SpeakerProfile.init sid).languageCounts.map Prod.snd).sum) ∧
    (∀ (p : SpeakerProfile) (lang : String),
      p.totalSamples = (p.languageCounts.map Prod.snd).sum →
      (p.add_sample lang).totalSamples =
        ((p.add_sample lang).languageCounts.map Prod.snd).sum) ∧
    (∀ p : SpeakerProfile,
      p.totalSamples = (p.languageCounts.map Prod.snd).sum →
      p.to_dict.totalSamples = (p.to_dict.languageCounts.map Prod.snd).sum) ∧
    (∀ (sid : Int) (p : SpeakerProfile),
      p.totalSamples = (p.languageCounts.map Prod.snd).sum →
      (SpeakerProfile.from_dict sid p.to_dict).totalSamples =
        ((SpeakerProfile.from_dict sid p.to_dict).languageCounts.map Prod.snd).sum) ∧
    (∀ (sid : Int) (langs : List String),
      (langs.foldl SpeakerProfile.add_sample (SpeakerProfile.init sid)).totalSamples =
        ((langs.foldl SpeakerProfile.add_sample
          (SpeakerProfile.init sid)).languageCounts.map Prod.snd).sum) := by
  have hadd : ∀ (p : SpeakerProfile) (lang : String),
      p.totalSamples = (p.languageCounts.map Prod.snd).sum →
      (p.add_sample lang).totalSamples =
        ((p.add_sample lang).languageCounts.map Prod.snd).sum := by
    intro p lang h
    simp only [SpeakerProfile.add_sample, sum_bumpCount, h]
  refine ⟨?_, hadd, ?_, ?_, ?_⟩
  · intro sid
    simp [SpeakerProfile.init]
  · intro p h
    simpa [SpeakerProfile.to_dict] using h
  · intro sid p h
    simpa [SpeakerProfile.from_dict, SpeakerProfile.to_dict] using h
  · intro sid langs
    have : ∀ (l : List String) (p : SpeakerProfile),
        p.totalSamples = (p.languageCounts.map Prod.snd).sum →
        (l.foldl SpeakerProfile.add_sample p).totalSamples =
          ((l.foldl SpeakerProfile.add_sample p).languageCounts.map Prod.snd).sum := by
      intro l
      induction l with
      | nil => intro p h; simpa using h
      | cons x xs ih =>
        intro p h
        exact ih _ (hadd p x h)
    exact this langs _ (by simp [SpeakerProfile.init])

open FamilyChat in
/-- Witness for C8: the invariant concretely after two samples and a
serialization round trip. -/
theorem profile_total_samples_invariant_witness :
    (((SpeakerProfile.init 0).add_sample "en").add_sample "zh").totalSamples =
      (((((SpeakerProfile.init 0).add_sample "en").add_sample
        "zh").languageCounts).map Prod.snd).sum ∧
    (SpeakerProfile.from_dict 7
      (((SpeakerProfile.init 0).add_sample "en").to_dict)).totalSamples =
      ((SpeakerProfile.from_dict 7
        (((SpeakerProfile.init 0).add_sample "en").to_dict)).languageCounts.map Prod.snd).sum := by
  constructor
  · exact profile_total_samples_invariant.2.1 _ "zh" (by decide)
  · exact profile_total_samples_invariant.2.2.2.1 7 _ (by decide)

/-! ## Render-pass lemmas (C7, C9) -/

namespace FamilyChat

/-- A profile already bound in the map survives `get_speaker_profile`
for any (possibly different) speaker id. -/
theorem get_speaker_profile_preserves (s : Session) (sp sid : Int) (p : SpeakerProfile)
    (h : dictGet s.speakerProfiles sid = some p) :
    dictGet (s.get_speaker_profile sp).2.speakerProfiles sid = some p := by
  by_cases he : sid = sp
  · subst he
    unfold Session.get_speaker_profile
    rw [h]
    exact h
  · rw [get_speaker_profile_dictGet_ne s sp sid he]
    exact h

/-- If the requested profile already exists, `get_speaker_profile` leaves
the session untouched. -/
theorem get_speaker_profile_of_present (s : Session) (sp : Int)
    (h : dictGet s.speakerProfiles sp ≠ none) : (s.get_speaker_profile sp).2 = s := by
  unfold Session.get_speaker_profile
  cases hl : dictGet s.speakerProfiles sp with
  | some p => rfl
  | none => exact absurd hl h

/-- The family-module plain renderer drops a translation token whose
`source_language` is the hardcoded `"en"`: the loop state is untouched. -/
theorem renderPlainStep_drop (st : PlainRenderState) (t : Token)
    (htr : t.translationStatus = some "translation")
    (hsrc : t.sourceLanguage = some "en") : renderPlainStep st t = st := by
  simp [renderPlainStep, htr, hsrc]

end FamilyChat

namespace LiveTranscriber

open FamilyChat

/-- The rich renderer drops a translation token whose `source_language`
equals the session's target language: the loop state is untouched. -/
theorem renderRichStep_drop (st : RichRenderState) (t : Token)
    (htr : t.translationStatus = some "translation")
    (hsrc : t.sourceLanguage = some st.sess.targetLanguage) : renderRichStep st t = st := by
  simp [renderRichStep, htr, hsrc]

/-- The scrollback plain renderer drops a translation token whose
`source_language` equals the session's target language. -/
theorem renderUIPlainStep_drop (st : UIPlainState) (t : Token)
    (htr : t.translationStatus = some "translation")
    (hsrc : t.sourceLanguage = some st.sess.targetLanguage) : renderUIPlainStep st t = st := by
  simp [renderUIPlainStep, htr, hsrc]

/-- The session carried through one rich-render step is either untouched
or the result of one `get_speaker_profile` call for the token's
speaker. -/
theorem renderRichStep_sess_cases (st : RichRenderState) (t : Token) :
    (renderRichStep st t).sess = st.sess ∨
    ∃ sp, t.speaker = some sp ∧
      (renderRichStep st t).sess = (st.sess.get_speaker_profile sp).2 := by
  unfold renderRichStep
  dsimp only
  by_cases hdrop : t.translationStatus = some "translation" ∧
      t.sourceLanguage = some st.sess.targetLanguage
  · rw [if_pos hdrop]
    exact Or.inl rfl
  · rw [if_neg hdrop]
    cases hsp : t.speaker with
    | none =>
      left
      dsimp only
      split <;> (try dsimp only) <;> (try split) <;> (try dsimp only) <;> (try split) <;> rfl
    | some sp =>
      dsimp only
      by_cases hcs : st.currentSpeaker = some sp
      · rw [if_pos hcs]
        left
        dsimp only
        split <;> (try dsimp only) <;> (try split) <;> (try dsimp only) <;> (try split) <;> rfl
      · rw [if_neg hcs]
        right
        refine ⟨sp, rfl, ?_⟩
        dsimp only
        split <;> (try dsimp only) <;> (try split) <;> (try dsimp only) <;> (try split) <;> rfl

/-- One rich-render step can only extend the profile map; every other
session field, and every profile already present, is preserved. -/
theorem renderRichStep_sess (st : RichRenderState) (t : Token) :
    (renderRichStep st t).sess.targetLanguage = st.sess.targetLanguage ∧
    (renderRichStep st t).sess.finalTokens = st.sess.finalTokens ∧
    (renderRichStep st t).sess.segmentCount = st.sess.segmentCount ∧
    (∀ sid p, dictGet st.sess.speakerProfiles sid = some p →
      dictGet (renderRichStep st t).sess.speakerProfiles sid = some p) := by
  rcases renderRichStep_sess_cases st t with h | ⟨sp, _hsp, h⟩
  · rw [h]
    exact ⟨rfl, rfl, rfl, fun sid p hp => hp⟩
  · rw [h]
    exact ⟨(get_speaker_profile_frame st.sess sp).2.2.1,
      (get_speaker_profile_frame st.sess sp).1,
      (get_speaker_profile_frame st.sess sp).2.1,
      fun sid p hp => get_speaker_profile_preserves st.sess sp sid p hp⟩

/-- If the token's speaker (when any) already has a profile, one
rich-render step leaves the session untouched. -/
theorem renderRichStep_sess_of_present (st : RichRenderState) (t : Token)
    (h : ∀ sid, t.speaker = some sid → dictGet st.sess.speakerProfiles sid ≠ none) :
    (renderRichStep st t).sess = st.sess := by
  rcases renderRichStep_sess_cases st t with h1 | ⟨sp, hsp, h1⟩
  · exact h1
  · rw [h1]
    exact get_speaker_profile_of_present st.sess sp (h sp hsp)

/-- Along the rich-render fold the session's target language never
changes. -/
theorem foldl_renderRichStep_target (l : List Token) (st : RichRenderState) :
    (l.foldl renderRichStep st).sess.targetLanguage = st.sess.targetLanguage := by
  induction l generalizing st with
  | nil => rfl
  | cons t rest ih => rw [List.foldl_cons, ih, (renderRichStep_sess st t).1]

/-- The session carried through one scrollback-render step is either
untouched or the result of one `get_speaker_profile` call for the
token's speaker. -/
theorem renderUIPlainStep_sess_cases (st : UIPlainState) (t : Token) :
    (renderUIPlainStep st t).sess = st.sess ∨
    ∃ sp, t.speaker = some sp ∧
      (renderUIPlainStep st t).sess = (st.sess.get_speaker_profile sp).2 := by
  unfold renderUIPlainStep
  dsimp only
  by_cases hdrop : t.translationStatus = some "translation" ∧
      t.sourceLanguage = some st.sess.targetLanguage
  · rw [if_pos hdrop]
    exact Or.inl rfl
  · rw [if_neg hdrop]
    cases hsp : t.speaker with
    | none =>
      left
      dsimp only
      split <;> (try dsimp only) <;> (try split) <;> rfl
    | some sp =>
      dsimp only
      by_cases hcs : st.currentSpeaker = some sp
      · rw [if_pos hcs]
        left
        dsimp only
        split <;> (try dsimp only) <;> (try split) <;> rfl
      · rw [if_neg hcs]
        right
        refine ⟨sp, rfl, ?_⟩
        dsimp only
        split <;> (try dsimp only) <;> (try split) <;> rfl

/-- Along the scrollback-render fold the session's target language never
changes. -/
theorem foldl_renderUIPlainStep_target (l : List Token) (st : UIPlainState) :
    (l.foldl renderUIPlainStep st).sess.targetLanguage = st.sess.targetLanguage := by
  induction l generalizing st with
  | nil => rfl
  | cons t rest ih =>
    rw [List.foldl_cons, ih]
    rcases renderUIPlainStep_sess_cases st t with h | ⟨sp, _hsp, h⟩
    · rw [h]
    · rw [h]
      exact (get_speaker_profile_frame st.sess sp).2.2.1

/-- Dropping fold lemma for the rich renderer. -/
theorem foldl_renderRichStep_drop (l1 l2 : List Token) (st : RichRenderState) (t : Token)
    (htr : t.translationStatus = some "translation")
    (hsrc : t.sourceLanguage = some st.sess.targetLanguage) :
    (l1 ++ t :: l2).foldl renderRichStep st = (l1 ++ l2).foldl renderRichStep st := by
  rw [List.foldl_append, List.foldl_append, List.foldl_cons]
  congr 1
  apply renderRichStep_drop _ t htr
  rw [foldl_renderRichStep_target l1 st]
  exact hsrc

/-- Dropping fold lemma for the scrollback renderer. -/
theorem foldl_renderUIPlainStep_drop (l1 l2 : List Token) (st : UIPlainState) (t : Token)
    (htr : t.translationStatus = some "translation")
    (hsrc : t.sourceLanguage = some st.sess.targetLanguage) :
    (l1 ++ t :: l2).foldl renderUIPlainStep st = (l1 ++ l2).foldl renderUIPlainStep st := by
  rw [List.foldl_append, List.foldl_append, List.foldl_cons]
  congr 1
  apply renderUIPlainStep_drop _ t htr
  rw [foldl_renderUIPlainStep_target l1 st]
  exact hsrc

/-- Dropping fold lemma for the family-module plain renderer (hardcoded
`"en"`). -/
theorem foldl_renderPlainStep_drop (l1 l2 : List Token) (st : FamilyChat.PlainRenderState)
    (t : Token) (htr : t.translationStatus = some "translation")
    (hsrc : t.sourceLanguage = some "en") :
    (l1 ++ t :: l2).foldl FamilyChat.renderPlainStep st =
      (l1 ++ l2).foldl FamilyChat.renderPlainStep st := by
  rw [List.foldl_append, List.foldl_append, List.foldl_cons,
    FamilyChat.renderPlainStep_drop _ t htr hsrc]

/-- Frame fold lemma for the rich renderer: the token log, segment count
and all existing profiles survive the fold. -/
theorem foldl_renderRichStep_sess (l : List Token) (st : RichRenderState) :
    (l.foldl renderRichStep st).sess.finalTokens = st.sess.finalTokens ∧
    (l.foldl renderRichStep st).sess.segmentCount = st.sess.segmentCount ∧
    (∀ sid p, dictGet st.sess.speakerProfiles sid = some p →
      dictGet (l.foldl renderRichStep st).sess.speakerProfiles sid = some p) := by
  induction l generalizing st with
  | nil => exact ⟨rfl, rfl, fun sid p h => h⟩
  | cons t rest ih =>
    rw [List.foldl_cons]
    obtain ⟨h1, h2, h3⟩ := ih (renderRichStep st t)
    obtain ⟨_, g1, g2, g3⟩ := renderRichStep_sess st t
    exact ⟨h1.trans g1, h2.trans g2, fun sid p h => h3 sid p (g3 sid p h)⟩

/-- When every token speaker already has a profile, the rich-render fold
leaves the session untouched. -/
theorem foldl_renderRichStep_sess_of_present (l : List Token) :
    ∀ st : RichRenderState,
    (∀ t ∈ l, ∀ sid, t.speaker = some sid →
      dictGet st.sess.speakerProfiles sid ≠ none) →
    (l.foldl renderRichStep st).sess = st.sess := by
  induction l with
  | nil => intro st _; rfl
  | cons t rest ih =>
    intro st h
    have hstep : (renderRichStep st t).sess = st.sess :=
      renderRichStep_sess_of_present st t (h t (by simp))
    rw [List.foldl_cons]
    have hrest : ∀ t2 ∈ rest, ∀ sid, t2.speaker = some sid →
        dictGet (renderRichStep st t).sess.speakerProfiles sid ≠ none := by
      intro t2 ht2 sid hsid
      rw [hstep]
      exact h t2 (by simp [ht2]) sid hsid
    exact (ih (renderRichStep st t) hrest).trans hstep

end LiveTranscriber

/-! ## Claims about rendering (C7, C9) -/

open FamilyChat LiveTranscriber in
/-- Counterexample to C7 as stated: the persisted plain-text rendering
(`Session.render_plain_text` in the family module) drops translations
whose `source_language` is the hardcoded `"en"`, not the session's
configured target language.  With target language `"de"`, a translation
token with `source_language = "de"` still contributes its text to the
persisted rendering. -/
theorem render_plain_text_keeps_target_translation :
    (render_plain_text
      { name := "s", targetLanguage := "de", speakerProfiles := [],
        finalTokens := [{ text := "Hallo", speaker := none, language := some "de",
                          languageConfidence := some 1, isFinal := true,
                          translationStatus := some "translation",
                          sourceLanguage := some "de" }],
        segmentCount := 0, resumed := false }).1 ≠
    (render_plain_text
      { name := "s", targetLanguage := "de", speakerProfiles := [],
        finalTokens := [], segmentCount := 0, resumed := false }).1 := by
  decide

open FamilyChat LiveTranscriber in
/-- C7 (amended): a translation token whose `source_language` equals the
session's configured target language contributes nothing to the rich
render pass nor to the plain-text scrollback render, wherever it sits in
the rendered token sequence; the persisted plain-text rendering instead
drops a translation token whose `source_language` is the hardcoded
`"en"` (the target language of the family module tree). -/
theorem translation_source_equals_target_dropped (s : Session) (t : Token)
    (l1 l2 : List Token) (htr : t.translationStatus = some "translation") :
    (t.sourceLanguage = some s.targetLanguage →
      render_transcript_core s (l1 ++ t :: l2) = render_transcript_core s (l1 ++ l2)) ∧
    (t.sourceLanguage = some s.targetLanguage →
      render_transcript_plain_core s (l1 ++ t :: l2) =
        render_transcript_plain_core s (l1 ++ l2)) ∧
    (t.sourceLanguage = some "en" →
      render_plain_text_core s (l1 ++ t :: l2) = render_plain_text_core s (l1 ++ l2)) := by
  refine ⟨?_, ?_, ?_⟩
  · intro hsrc
    unfold render_transcript_core
    rw [foldl_renderRichStep_drop l1 l2 _ t htr hsrc]
  · intro hsrc
    unfold render_transcript_plain_core
    rw [foldl_renderUIPlainStep_drop l1 l2 _ t htr hsrc]
  · intro hsrc
    unfold render_plain_text_core
    rw [foldl_renderPlainStep_drop l1 l2 _ t htr hsrc]

open FamilyChat LiveTranscriber in
/-- Witness for C7: with target language `"en"`, a concrete
self-translation token is dropped from all three rendering paths. -/
theorem translation_source_equals_target_dropped_witness :
    render_transcript_core
      { name := "w", targetLanguage := "en", speakerProfiles := [],
        finalTokens := [], segmentCount := 0, resumed := false }
      [{ text := "x", speaker := some 0, language := some "en",
         languageConfidence := some 1, isFinal := true,
         translationStatus := some "translation", sourceLanguage := some "en" }] =
      render_transcript_core
        { name := "w", targetLanguage := "en", speakerProfiles := [],
          finalTokens := [], segmentCount := 0, resumed := false } [] ∧
    render_transcript_plain_core
      { name := "w", targetLanguage := "en", speakerProfiles := [],
        finalTokens := [], segmentCount := 0, resumed := false }
      [{ text := "x", speaker := some 0, language := some "en",
         languageConfidence := some 1, isFinal := true,
         translationStatus := some "translation", sourceLanguage := some "en" }] =
      render_transcript_plain_core
        { name := "w", targetLanguage := "en", speakerProfiles := [],
          finalTokens := [], segmentCount := 0, resumed := false } [] ∧
    render_plain_text_core
      { name := "w", targetLanguage := "en", speakerProfiles := [],
        finalTokens := [], segmentCount := 0, resumed := false }
      [{ text := "x", speaker := some 0, language := some "en",
         languageConfidence := some 1, isFinal := true,
         translationStatus := some "translation", sourceLanguage := some "en" }] =
      render_plain_text_core
        { name := "w", targetLanguage := "en", speakerProfiles := [],
          finalTokens := [], segmentCount := 0, resumed := false } [] := by
  have h := translation_source_equals_target_dropped
    { name := "w", targetLanguage := "en", speakerProfiles := [],
      finalTokens := [], segmentCount := 0, resumed := false }
    { text := "x", speaker := some 0, language := some "en",
      languageConfidence := some 1, isFinal := true,
      translationStatus := some "translation", sourceLanguage := some "en" }
    [] [] rfl
  exact ⟨h.1 rfl, h.2.1 rfl, h.2.2 rfl⟩

open FamilyChat LiveTranscriber in
/-- Counterexample to C9 as stated: the rich render pass lazily creates a
speaker profile (through `get_speaker_profile`) for a token speaker that
has none, so rendering can mutate the speaker-profile map. -/
theorem render_transcript_creates_profile :
    (render_transcript
      { name := "s", targetLanguage := "en", speakerProfiles := [],
        finalTokens := [{ text := "hi", speaker := some 0, language := some "en",
                          languageConfidence := some 1, isFinal := true,
                          translationStatus := none, sourceLanguage := none }],
        segmentCount := 0, resumed := false } []).2.speakerProfiles ≠
    ({ name := "s", targetLanguage := "en", speakerProfiles := [],
       finalTokens := [{ text := "hi", speaker := some 0, language := some "en",
                         languageConfidence := some 1, isFinal := true,
                         translationStatus := none, sourceLanguage := none }],
       segmentCount := 0, resumed := false } : Session).speakerProfiles := by
  decide

open FamilyChat LiveTranscriber in
/-- C9 (amended): the rich render pass never changes the token log or the
segment count, never mutates or removes an existing speaker profile, and
— whenever every rendered token's speaker already has a profile, as is
the case for every token that passed through `resolve_language` — leaves
the session entirely unchanged.  Its only possible effect is the lazy
creation of fresh profiles for speakers that have none. -/
theorem render_transcript_read_only (s : Session) (nonFinal : List Token) :
    (render_transcript s nonFinal).2.finalTokens = s.finalTokens ∧
    (render_transcript s nonFinal).2.segmentCount = s.segmentCount ∧
    (∀ sid p, dictGet s.speakerProfiles sid = some p →
      dictGet (render_transcript s nonFinal).2.speakerProfiles sid = some p) ∧
    ((∀ t ∈ s.finalTokens ++ nonFinal, ∀ sid, t.speaker = some sid →
        dictGet s.speakerProfiles sid ≠ none) →
      (render_transcript s nonFinal).2 = s) := by
  unfold render_transcript render_transcript_core
  obtain ⟨h1, h2, h3⟩ := foldl_renderRichStep_sess (s.finalTokens ++ nonFinal)
    { text := [], currentSpeaker := none, originalBuffer := ""
      translationBuffer := "", currentLang := none, bufferIsFinal := true, sess := s }
  refine ⟨h1, h2, h3, ?_⟩
  intro hpresent
  exact foldl_renderRichStep_sess_of_present (s.finalTokens ++ nonFinal)
    { text := [], currentSpeaker := none, originalBuffer := ""
      translationBuffer := "", currentLang := none, bufferIsFinal := true, sess := s }
    hpresent

open FamilyChat LiveTranscriber in
/-- Witness for C9: rendering a concrete session whose only speaker
already has a profile returns the session unchanged. -/
theorem render_transcript_read_only_witness :
    (render_transcript
      { name := "s", targetLanguage := "en",
        speakerProfiles := [(0, { speakerId := 0, languageCounts := [("en", 1)],
                                  lastLanguage := some "en", totalSamples := 1 })],
        finalTokens := [{ text := "hi", speaker := some 0, language := some "en",
                          languageConfidence := some 1, isFinal := true,
                          translationStatus := none, sourceLanguage := none }],
        segmentCount := 0, resumed := false } []).2 =
    { name := "s", targetLanguage := "en",
      speakerProfiles := [(0, { speakerId := 0, languageCounts := [("en", 1)],
                                lastLanguage := some "en", totalSamples := 1 })],
      finalTokens := [{ text := "hi", speaker := some 0, language := some "en",
                        languageConfidence := some 1, isFinal := true,
                        translationStatus := none, sourceLanguage := none }],
      segmentCount := 0, resumed := false } :=
  (render_transcript_read_only
    { name := "s", targetLanguage := "en",
      speakerProfiles := [(0, { speakerId := 0, languageCounts := [("en", 1)],
                                lastLanguage := some "en", totalSamples := 1 })],
      finalTokens := [{ text := "hi", speaker := some 0, language := some "en",
                        languageConfidence := some 1, isFinal := true,
                        translationStatus := none, sourceLanguage := none }],
      segmentCount := 0, resumed := false } []).2.2.2 (by decide)

/-! ## Claim about the scroll window (C6) -/

namespace LiveTranscriber

/-- A single scroll operation preserves the clamping invariant. -/
theorem applyScrollOp_inv (st : ScrollState) (op : ScrollOp)
    (h0 : 0 ≤ st.offset) (h1 : st.offset ≤ max 0 (st.totalLines - SCROLL_PAGE_SIZE)) :
    0 ≤ (applyScrollOp st op).offset ∧
      (applyScrollOp st op).offset ≤
        max 0 ((applyScrollOp st op).totalLines - SCROLL_PAGE_SIZE) := by
  cases op with
  | up n =>
    simp only [applyScrollOp, scroll_up, SCROLL_PAGE_SIZE] at h1 ⊢
    omega
  | down n =>
    simp only [applyScrollOp, scroll_down, SCROLL_PAGE_SIZE] at h1 ⊢
    omega
  | pageUp =>
    simp only [applyScrollOp, scroll_up, SCROLL_PAGE_SIZE] at h1 ⊢
    omega
  | pageDown =>
    simp only [applyScrollOp, scroll_down, SCROLL_PAGE_SIZE] at h1 ⊢
    omega
  | toTop =>
    simp only [applyScrollOp, scroll_to_top, SCROLL_PAGE_SIZE] at h1 ⊢
    omega
  | toBottom =>
    simp only [applyScrollOp, scroll_to_bottom, SCROLL_PAGE_SIZE] at h1 ⊢
    omega
  | enter e t =>
    cases e with
    | true => simpa only [applyScrollOp, enter_scroll_mode, if_true] using ⟨h0, h1⟩
    | false =>
      simp only [applyScrollOp, enter_scroll_mode, Bool.false_eq_true, if_false,
        SCROLL_PAGE_SIZE]
      omega

end LiveTranscriber

open LiveTranscriber in
/-- C6: for every `total_lines ≥ 0` and every finite sequence of scroll
operations (up/down by `n`, page up/down, to-top, to-bottom, enter scroll
mode), the scroll offset stays within
`[0, max(0, total_lines - SCROLL_PAGE_SIZE)]` (with `total_lines` as
updated by entering scroll mode). -/
theorem scroll_offset_in_range (total : Int) (_htotal : 0 ≤ total) (ops : List ScrollOp) :
    0 ≤ (runScrollOps total ops).offset ∧
      (runScrollOps total ops).offset ≤
        max 0 ((runScrollOps total ops).totalLines - SCROLL_PAGE_SIZE) := by
  have step : ∀ (l : List ScrollOp) (st : ScrollState),
      0 ≤ st.offset → st.offset ≤ max 0 (st.totalLines - SCROLL_PAGE_SIZE) →
      0 ≤ (l.foldl applyScrollOp st).offset ∧
        (l.foldl applyScrollOp st).offset ≤
          max 0 ((l.foldl applyScrollOp st).totalLines - SCROLL_PAGE_SIZE) := by
    intro l
    induction l with
    | nil => intro st h0 h1; exact ⟨h0, h1⟩
    | cons op rest ih =>
      intro st h0 h1
      obtain ⟨a, b⟩ := applyScrollOp_inv st op h0 h1
      exact ih _ a b
  exact step ops { offset := 0, totalLines := total } le_rfl (le_max_left 0 _)

open LiveTranscriber in
/-- Witness for C6: a concrete operation sequence at 50 total lines ends
inside the clamped range. -/
theorem scroll_offset_in_range_witness :
    0 ≤ (runScrollOps 50 [ScrollOp.enter false 50, ScrollOp.up 7, ScrollOp.pageUp,
        ScrollOp.down 3, ScrollOp.toBottom, ScrollOp.pageDown, ScrollOp.up 100]).offset ∧
      (runScrollOps 50 [ScrollOp.enter false 50, ScrollOp.up 7, ScrollOp.pageUp,
        ScrollOp.down 3, ScrollOp.toBottom, ScrollOp.pageDown, ScrollOp.up 100]).offset ≤
        max 0 ((runScrollOps 50 [ScrollOp.enter false 50, ScrollOp.up 7, ScrollOp.pageUp,
          ScrollOp.down 3, ScrollOp.toBottom, ScrollOp.pageDown,
          ScrollOp.up 100]).totalLines - SCROLL_PAGE_SIZE) :=
  scroll_offset_in_range 50 (by decide)
    [ScrollOp.enter false 50, ScrollOp.up 7, ScrollOp.pageUp,
     ScrollOp.down 3, ScrollOp.toBottom, ScrollOp.pageDown, ScrollOp.up 100]
